import Mathlib

/-!
Verification development for the kompute image/texture resource subsystem
(`src/Image.cpp`, `src/Texture.cpp`, `src/include/kompute/ImageBase.hpp`,
`src/include/kompute/Image.hpp`, `src/include/kompute/Texture.hpp`).

The C++ classes are shallowly embedded: each object is a record of its data
members, each member function is a Lean function from the record (plus
arguments) to a record together with a log of the device calls it issues.
Vulkan handles are modelled as natural numbers, null handles as `none`.
-/

namespace kp

/-- Modelled from the spec: the element data types of `kp::DataTypes`
(declared in `Memory.hpp`, which is not under `src/`); the spec lists
signed and unsigned 8/16/32-bit integers, 32-bit float, and an
opaque custom blob that is disallowed for image-like resources. -/
inductive DataTypes where
  | eS8
  | eU8
  | eS16
  | eU16
  | eS32
  | eU32
  | eF32
  | eCustom
deriving DecidableEq

/-- Modelled from the spec: the residency classes of `kp::MemoryTypes`
(declared in `Memory.hpp`, which is not under `src/`): device-only,
host-only, device-and-host, storage.  `eUnknownEnumValue` stands for any
value of the underlying C++ enum outside the four enumerators; it is the
value the `default:` branches of the switch statements in `Image.cpp` and
`Texture.cpp` and the final `else` of the tiling-inferring constructor
reject. -/
inductive MemoryTypes where
  | eDevice
  | eHost
  | eDeviceAndHost
  | eStorage
  | eUnknownEnumValue
deriving DecidableEq

/-- The vk::ImageLayout values this subsystem uses. -/
inductive ImageLayout where
  | eUndefined
  | eGeneral
  | eTransferSrcOptimal
  | eTransferDstOptimal
  | eShaderReadOnlyOptimal
deriving DecidableEq

/-- The vk::ImageTiling values. -/
inductive ImageTiling where
  | eOptimal
  | eLinear
deriving DecidableEq

/-- The vk::ImageUsageFlags bits this subsystem sets; a flag value is the
set of bits that are on. -/
structure ImageUsageFlags where
  eSampled : Bool := false
  eStorage : Bool := false
  eTransferSrc : Bool := false
  eTransferDst : Bool := false
deriving DecidableEq

/-- The vk::DescriptorType values used by Image and Texture. -/
inductive DescriptorType where
  | eStorageImage
  | eCombinedImageSampler
deriving DecidableEq

/-- Image: `Image::getPrimaryImageUsageFlags` (src/Image.cpp lines 51-72).
The switch returns storage + transfer-src + transfer-dst for eDevice,
eHost and eDeviceAndHost (one group of fall-through cases) and the same
flags for eStorage (a second case); the default branch throws
a runtime error. -/
def Image.getPrimaryImageUsageFlags :
    MemoryTypes → Except String ImageUsageFlags
  | .eDevice | .eHost | .eDeviceAndHost =>
      .ok { eStorage := true, eTransferSrc := true, eTransferDst := true }
  | .eStorage =>
      .ok { eStorage := true, eTransferSrc := true, eTransferDst := true }
  | .eUnknownEnumValue => .error "Kompute Image invalid image type"

/-- Texture: `Texture::getPrimaryImageUsageFlags` (src/Texture.cpp lines
56-77).  Identical switch structure, but requesting sampled-image usage
instead of storage-image usage. -/
def Texture.getPrimaryImageUsageFlags :
    MemoryTypes → Except String ImageUsageFlags
  | .eDevice | .eHost | .eDeviceAndHost =>
      .ok { eSampled := true, eTransferSrc := true, eTransferDst := true }
  | .eStorage =>
      .ok { eSampled := true, eTransferSrc := true, eTransferDst := true }
  | .eUnknownEnumValue => .error "Kompute Image invalid image type"

/-- The data members of `ImageBase` (ImageBase.hpp lines 209-222) together
with the members it inherits from `Memory` that this subsystem reads
(device presence, data type, residency, extent).  Vulkan image and view
handles are natural numbers; a null shared pointer or null handle is
`none`.  `nextViewHandle` models the fresh handle the device returns from
`createImageView`.  The default field values are the in-class
initializers of ImageBase.hpp. -/
structure ImageBaseState where
  mDevice : Bool := true
  mDataType : DataTypes := DataTypes.eU8
  mMemoryType : MemoryTypes := MemoryTypes.eDevice
  mDescriptorType : DescriptorType := DescriptorType.eStorageImage
  mX : Nat := 0
  mY : Nat := 0
  mDataSize : Nat := 0
  mNumChannels : Nat := 0
  mTiling : ImageTiling := ImageTiling.eLinear
  mPrimaryImage : Option Nat := none
  mFreePrimaryImage : Bool := false
  mPrimaryImageLayout : ImageLayout := ImageLayout.eUndefined
  mStagingImage : Option Nat := none
  mFreeStagingImage : Bool := false
  mStagingImageLayout : ImageLayout := ImageLayout.eUndefined
  mImageView : Option Nat := none
  nextViewHandle : Nat := 0
deriving DecidableEq

/-- The data members of `Texture` (Texture.hpp line 214): the sampler
handle on top of the inherited ImageBase state.  A vk::Sampler null
handle is `none`. -/
structure TextureState extends ImageBaseState where
  mSampler : Option Nat := none
deriving DecidableEq

/-- The device calls teardown code issues, in issue order.
`destroySampler` carries the handle value passed (possibly the null
handle), matching `vk::Device::destroySampler`. -/
inductive DeviceOp where
  | destroySampler (handle : Option Nat)
  | destroyImageView (handle : Nat)
  | freeImage (handle : Nat)
deriving DecidableEq

/-- Modelled from the spec: `ImageBase::destroy` (implemented in
ImageBase.cpp, which is not under `src/`).  Spec 4.1/4.2: destroy is an
idempotent-by-guard release; it is a no-op when the device reference is
already cleared; it frees the staging allocation (before the primary),
the primary allocation — each only if its owns-this-resource flag is set
— and the cached image view, nulling each released handle so a second
call finds nothing left to release. -/
def ImageBase.destroy (st : ImageBaseState) :
    ImageBaseState × List DeviceOp :=
  if !st.mDevice then (st, [])
  else
    let (st1, stagingOps) :=
      match st.mStagingImage with
      | some h =>
          if st.mFreeStagingImage then
            ({ st with mStagingImage := none }, [DeviceOp.freeImage h])
          else (st, [])
      | none => (st, [])
    let (st2, primaryOps) :=
      match st1.mPrimaryImage with
      | some h =>
          if st1.mFreePrimaryImage then
            ({ st1 with mPrimaryImage := none }, [DeviceOp.freeImage h])
          else (st1, [])
      | none => (st1, [])
    let (st3, viewOps) :=
      match st2.mImageView with
      | some v =>
          ({ st2 with mImageView := none }, [DeviceOp.destroyImageView v])
      | none => (st2, [])
    (st3, stagingOps ++ primaryOps ++ viewOps)

/-- Texture: `Texture::destroy` (src/Texture.cpp lines 92-112).  Returns
early when the device reference is null (logging a warning); otherwise
destroys the sampler if it is non-null and nulls the member, then calls
`ImageBase::destroy`. -/
def Texture.destroy (st : TextureState) : TextureState × List DeviceOp :=
  if !st.mDevice then (st, [])
  else
    let (st1, samplerOps) :=
      match st.mSampler with
      | some h =>
          ({ st with mSampler := none }, [DeviceOp.destroySampler (some h)])
      | none => (st, [])
    let (base2, baseOps) := ImageBase.destroy st1.toImageBaseState
    ({ st1 with toImageBaseState := base2 }, samplerOps ++ baseOps)

/-- Texture: the body of `Texture::~Texture` (src/Texture.cpp lines
79-90).  When the device reference is non-null it first calls
`mDevice->destroySampler(mSampler)` directly — passing whatever handle
`mSampler` holds and NOT nulling the member — and then calls
`this->destroy()`, which inside the Texture destructor dispatches to
`Texture::destroy`. -/
def Texture.destructorRun (st : TextureState) :
    TextureState × List DeviceOp :=
  if st.mDevice then
    let preOps := [DeviceOp.destroySampler st.mSampler]
    let (st1, destroyOps) := Texture.destroy st
    (st1, preOps ++ destroyOps)
  else (st, [])

/-- The vk::ImageViewType values. -/
inductive ImageViewType where
  | e1D
  | e2D
  | e3D
  | eCube
deriving DecidableEq

/-- The vk::ImageAspectFlagBits values used here. -/
inductive ImageAspectFlagBits where
  | eColor
  | eDepth
deriving DecidableEq

/-- Modelled from the spec: `ImageBase::getFormat` (implemented in
ImageBase.cpp, which is not under `src/`): the hardware format is
determined by the element data type and the channel count. -/
def ImageBase.getFormat (st : ImageBaseState) : DataTypes × Nat :=
  (st.mDataType, st.mNumChannels)

/-- The fields of `vk::ImageViewCreateInfo` that the source fills in. -/
structure ImageViewCreateInfo where
  image : Option Nat
  format : DataTypes × Nat
  viewType : ImageViewType
  baseMipLevel : Nat
  levelCount : Nat
  baseArrayLayer : Nat
  layerCount : Nat
  aspectMask : ImageAspectFlagBits
deriving DecidableEq

/-- The fields of `vk::DescriptorImageInfo`.  Its default constructor
leaves the sampler as the null handle (`none`). -/
structure DescriptorImageInfo where
  sampler : Option Nat := none
  imageView : Nat
  imageLayout : ImageLayout
deriving DecidableEq

/-- Image: `Image::constructDescriptorImageInfo` (src/Image.cpp lines
20-49).  Builds a view-creation info over the primary image (2-D view,
mip 0, one level, layer 0, one layer, color aspect); creates and caches
the image view only when `mImageView` is null; returns a descriptor info
with the cached view and `imageLayout = mPrimaryImageLayout`, leaving the
sampler field at its null default.  The result is the returned
descriptor info, the post state, and the list of view-creation calls
issued. -/
def Image.constructDescriptorImageInfo (st : ImageBaseState) :
    DescriptorImageInfo × ImageBaseState × List ImageViewCreateInfo :=
  let viewInfo : ImageViewCreateInfo :=
    { image := st.mPrimaryImage
      format := ImageBase.getFormat st
      viewType := ImageViewType.e2D
      baseMipLevel := 0
      levelCount := 1
      baseArrayLayer := 0
      layerCount := 1
      aspectMask := ImageAspectFlagBits.eColor }
  let (st1, created) :=
    match st.mImageView with
    | none =>
        ({ st with mImageView := some st.nextViewHandle
                   nextViewHandle := st.nextViewHandle + 1 }, [viewInfo])
    | some _ => (st, [])
  let descriptorInfo : DescriptorImageInfo :=
    { imageView := (st1.mImageView).getD 0
      imageLayout := st.mPrimaryImageLayout }
  (descriptorInfo, st1, created)

/-- Texture: `Texture::constructDescriptorImageInfo` (src/Texture.cpp
lines 7-37).  Same view construction and caching as the Image variant,
but the returned descriptor info additionally carries the owned sampler
member. -/
def Texture.constructDescriptorImageInfo (st : TextureState) :
    DescriptorImageInfo × TextureState × List ImageViewCreateInfo :=
  let viewInfo : ImageViewCreateInfo :=
    { image := st.mPrimaryImage
      format := ImageBase.getFormat st.toImageBaseState
      viewType := ImageViewType.e2D
      baseMipLevel := 0
      levelCount := 1
      baseArrayLayer := 0
      layerCount := 1
      aspectMask := ImageAspectFlagBits.eColor }
  let (st1, created) :=
    match st.mImageView with
    | none =>
        ({ st with mImageView := some st.nextViewHandle
                   nextViewHandle := st.nextViewHandle + 1 }, [viewInfo])
    | some _ => (st, [])
  let descriptorInfo : DescriptorImageInfo :=
    { imageView := (st1.mImageView).getD 0
      imageLayout := st.mPrimaryImageLayout
      sampler := st.mSampler }
  (descriptorInfo, st1, created)

/-- Which of the two allocations of an image-like resource a barrier
targets. -/
inductive AllocKind where
  | primary
  | staging
deriving DecidableEq

/-- Modelled from the spec: `ImageBase::recordPrimaryImageBarrier`
(declared at ImageBase.hpp lines 134-139, implemented in ImageBase.cpp,
which is not under `src/`).  Spec 4.2: the call transitions the primary
allocation from its currently tracked layout (`mPrimaryImageLayout`) to
the caller-specified destination layout, emitting the pipeline barrier
with the caller-specified access and stage masks, and then updates the
tracked layout field.  The emitted barrier is returned as a record of
its parameters. -/
structure EmittedBarrier where
  target : AllocKind
  srcAccessMask : Nat
  dstAccessMask : Nat
  srcStageMask : Nat
  dstStageMask : Nat
  srcLayout : ImageLayout
  dstLayout : ImageLayout
deriving DecidableEq

def ImageBase.recordPrimaryImageBarrier (st : ImageBaseState)
    (srcAccessMask dstAccessMask srcStageMask dstStageMask : Nat)
    (dstLayout : ImageLayout) : ImageBaseState × EmittedBarrier :=
  ({ st with mPrimaryImageLayout := dstLayout },
   { target := AllocKind.primary
     srcAccessMask := srcAccessMask
     dstAccessMask := dstAccessMask
     srcStageMask := srcStageMask
     dstStageMask := dstStageMask
     srcLayout := st.mPrimaryImageLayout
     dstLayout := dstLayout })

/-- Modelled from the spec: `ImageBase::recordStagingImageBarrier`
(declared at ImageBase.hpp lines 301-306, implemented in ImageBase.cpp,
which is not under `src/`).  The staging counterpart of
`recordPrimaryImageBarrier`: transitions the staging allocation from
`mStagingImageLayout` to the destination layout and updates that field. -/
def ImageBase.recordStagingImageBarrier (st : ImageBaseState)
    (srcAccessMask dstAccessMask srcStageMask dstStageMask : Nat)
    (dstLayout : ImageLayout) : ImageBaseState × EmittedBarrier :=
  ({ st with mStagingImageLayout := dstLayout },
   { target := AllocKind.staging
     srcAccessMask := srcAccessMask
     dstAccessMask := dstAccessMask
     srcStageMask := srcStageMask
     dstStageMask := dstStageMask
     srcLayout := st.mStagingImageLayout
     dstLayout := dstLayout })

/-- One recorded barrier call, as the caller issues it: which allocation
is targeted, the four caller-supplied masks, and the destination
layout. -/
structure BarrierCall where
  target : AllocKind
  srcAccessMask : Nat
  dstAccessMask : Nat
  srcStageMask : Nat
  dstStageMask : Nat
  dstLayout : ImageLayout
deriving DecidableEq

/-- Dispatches one barrier call to the corresponding record function. -/
def applyBarrierCall (st : ImageBaseState) (c : BarrierCall) :
    ImageBaseState × EmittedBarrier :=
  match c.target with
  | AllocKind.primary =>
      ImageBase.recordPrimaryImageBarrier st c.srcAccessMask c.dstAccessMask
        c.srcStageMask c.dstStageMask c.dstLayout
  | AllocKind.staging =>
      ImageBase.recordStagingImageBarrier st c.srcAccessMask c.dstAccessMask
        c.srcStageMask c.dstStageMask c.dstLayout

/-- Runs a sequence of recorded barrier calls, collecting the emitted
hardware barriers in order. -/
def applyBarrierSeq (st : ImageBaseState) :
    List BarrierCall → ImageBaseState × List EmittedBarrier
  | [] => (st, [])
  | c :: cs =>
      let (st1, e) := applyBarrierCall st c
      let (st2, es) := applyBarrierSeq st1 cs
      (st2, e :: es)

/-- The tracked layout field of a state for a given allocation. -/
def trackedLayout (st : ImageBaseState) : AllocKind → ImageLayout
  | AllocKind.primary => st.mPrimaryImageLayout
  | AllocKind.staging => st.mStagingImageLayout

/-- Spec-side reading of the layout-tracking property, written from the
words of the claim and independently of the step functions: the
destination layout of the most recently recorded barrier for the given
allocation, or undefined when no barrier targeted it. -/
def lastDstLayout (calls : List BarrierCall) (a : AllocKind) : ImageLayout :=
  match calls.reverse.find? (fun c => decide (c.target = a)) with
  | some c => c.dstLayout
  | none => ImageLayout.eUndefined

/-- One physical allocation made during construction. -/
inductive AllocEvent where
  | primaryAlloc
  | stagingAlloc
  | samplerAlloc
deriving DecidableEq

/-- Modelled from the spec: `ImageBase::init` together with
`allocateMemoryCreateGPUResources` (implemented in ImageBase.cpp, which
is not under `src/`).  Spec 4.2: creates the primary allocation with the
resolved tiling, and, when the residency class requires host
interoperability (device-only residency, which is not host-visible),
additionally a staging allocation; an unsupported residency class is a
fatal error raised before any allocation occurs.  The result is the list
of allocations made and the constructed state (or the fatal error). -/
def ImageBase.init (dataType : DataTypes) (mt : MemoryTypes)
    (dataSize x y numChannels : Nat) (tiling : ImageTiling)
    (descriptorType : DescriptorType) :
    List AllocEvent × Except String ImageBaseState :=
  if mt = MemoryTypes.eUnknownEnumValue then
    ([], Except.error "Kompute Image unsupported memory type")
  else
    let needStaging := mt = MemoryTypes.eDevice
    let st : ImageBaseState :=
      { mDevice := true
        mDataType := dataType
        mMemoryType := mt
        mDescriptorType := descriptorType
        mX := x
        mY := y
        mDataSize := dataSize
        mNumChannels := numChannels
        mTiling := tiling
        mPrimaryImage := some 1
        mFreePrimaryImage := true
        mPrimaryImageLayout := ImageLayout.eUndefined
        mStagingImage := if needStaging then some 2 else none
        mFreeStagingImage := needStaging
        mStagingImageLayout := ImageLayout.eUndefined
        mImageView := none
        nextViewHandle := 3 }
    (AllocEvent.primaryAlloc ::
       (if needStaging then [AllocEvent.stagingAlloc] else []),
     Except.ok st)

/-- Image: the explicit-tiling constructor `Image::Image`
(src/include/kompute/Image.hpp lines 39-58): throws for the custom data
type before anything else, sets the storage-image descriptor type, then
calls `init` with the caller-supplied tiling. -/
def Image.constructWithTiling (dataType : DataTypes)
    (dataSize x y numChannels : Nat) (tiling : ImageTiling)
    (mt : MemoryTypes) : List AllocEvent × Except String ImageBaseState :=
  if dataType = DataTypes.eCustom then
    ([], Except.error "Custom data types are not supported for Kompute Images")
  else
    ImageBase.init dataType mt dataSize x y numChannels tiling
      DescriptorType.eStorageImage

/-- Image: the tiling-inferring constructor `Image::Image`
(src/include/kompute/Image.hpp lines 107-138): throws for the custom
data type, then resolves tiling from the residency class — linear for
eHost and eDeviceAndHost, optimal for eDevice and eStorage, a fatal
error for anything else — and calls `init` with the resolved tiling. -/
def Image.construct (dataType : DataTypes)
    (dataSize x y numChannels : Nat) (mt : MemoryTypes) :
    List AllocEvent × Except String ImageBaseState :=
  if dataType = DataTypes.eCustom then
    ([], Except.error "Custom data types are not supported for Kompute Images")
  else if mt = MemoryTypes.eHost ∨ mt = MemoryTypes.eDeviceAndHost then
    ImageBase.init dataType mt dataSize x y numChannels ImageTiling.eLinear
      DescriptorType.eStorageImage
  else if mt = MemoryTypes.eDevice ∨ mt = MemoryTypes.eStorage then
    ImageBase.init dataType mt dataSize x y numChannels ImageTiling.eOptimal
      DescriptorType.eStorageImage
  else
    ([], Except.error "Kompute Image unsupported memory type")

/-- Texture: the explicit-tiling constructor `Texture::Texture`
(src/include/kompute/Texture.hpp lines 38-68): runs the Image
constructor (whose custom-data-type check therefore fires first), then
creates the sampler from the filter and address-mode configuration.  If
the Image constructor throws, the constructor body never runs and no
sampler is created. -/
def Texture.constructWithTiling (dataType : DataTypes)
    (dataSize x y numChannels : Nat) (tiling : ImageTiling)
    (mt : MemoryTypes) : List AllocEvent × Except String TextureState :=
  match Image.constructWithTiling dataType dataSize x y numChannels tiling mt with
  | (allocs, Except.error e) => (allocs, Except.error e)
  | (allocs, Except.ok base) =>
      (allocs ++ [AllocEvent.samplerAlloc],
       Except.ok { toImageBaseState := base, mSampler := some 7 })

/-- Texture: the tiling-inferring constructor `Texture::Texture`
(src/include/kompute/Texture.hpp lines 121-149): runs the
tiling-inferring Image constructor, then creates the sampler. -/
def Texture.construct (dataType : DataTypes)
    (dataSize x y numChannels : Nat) (mt : MemoryTypes) :
    List AllocEvent × Except String TextureState :=
  match Image.construct dataType dataSize x y numChannels mt with
  | (allocs, Except.error e) => (allocs, Except.error e)
  | (allocs, Except.ok base) =>
      (allocs ++ [AllocEvent.samplerAlloc],
       Except.ok { toImageBaseState := base, mSampler := some 7 })

/-- Modelled from the spec: `Memory::dataTypeMemorySize` bytes per
element, derived from the data type (Memory.hpp is not under `src/`;
spec 3 lists 8/16/32-bit integers and 32-bit float). -/
def bytesPerElement : DataTypes → Nat
  | DataTypes.eS8 | DataTypes.eU8 => 1
  | DataTypes.eS16 | DataTypes.eU16 => 2
  | DataTypes.eS32 | DataTypes.eU32 => 4
  | DataTypes.eF32 => 4
  | DataTypes.eCustom => 1

/-- ImageT: the explicit-tiling vector constructor `ImageT<T>::ImageT`
(src/include/kompute/Image.hpp lines 199-228): delegates to the Image
constructor passing `data.data()` and `data.size()` — the element count
of the vector — as the `dataSize` argument.  `dt` stands for
`Memory::dataType<T>()`. -/
def ImageT.construct (T : Type) (data : List T)
    (x y numChannels : Nat) (dt : DataTypes) (tiling : ImageTiling)
    (mt : MemoryTypes) : List AllocEvent × Except String ImageBaseState :=
  Image.constructWithTiling dt data.length x y numChannels tiling mt

/-- TextureT: the explicit-tiling vector constructor
`TextureT<T>::TextureT` (src/include/kompute/Texture.hpp lines 221-254):
delegates to the Texture constructor passing `data.size()` as
`dataSize`. -/
def TextureT.construct (T : Type) (data : List T)
    (x y numChannels : Nat) (dt : DataTypes) (tiling : ImageTiling)
    (mt : MemoryTypes) : List AllocEvent × Except String TextureState :=
  Texture.constructWithTiling dt data.length x y numChannels tiling mt

/-- The host-visible mapped memory a typed accessor reads: a value at
every signed offset from the start of the mapped data (pointer
arithmetic is unrestricted), together with the element count of the
resource.  `Memory::data<T>()` is the function from offsets to values. -/
structure MappedRegion (T : Type) where
  contents : Int → T
  count : Nat

/-- A mapped region whose first `xs.length` offsets hold the elements of
`xs` and whose every other offset holds whatever happens to lie in the
surrounding memory. -/
def MappedRegion.ofList {T : Type} (xs : List T)
    (surrounding : Int → T) : MappedRegion T :=
  { contents := fun i =>
      if h : 0 ≤ i ∧ i.toNat < xs.length then xs.get ⟨i.toNat, h.2⟩
      else surrounding i
    count := xs.length }

/-- ImageT: `ImageT<T>::operator[]` (src/include/kompute/Image.hpp line
315): `return *(Memory::data<T>() + index);` — a raw read at the given
signed offset, with no branch of any kind. -/
def ImageT.opIndex {T : Type} (m : MappedRegion T) (index : Int) : T :=
  m.contents index

/-- TextureT: `TextureT<T>::operator[]` (src/include/kompute/Texture.hpp
line 353): identical raw read. -/
def TextureT.opIndex {T : Type} (m : MappedRegion T) (index : Int) : T :=
  m.contents index

/-- A live Texture: device reference present, owned sampler handle 7,
owned primary and staging allocations, no cached view. -/
def texLive : TextureState :=
  { mDevice := true
    mSampler := some 7
    mPrimaryImage := some 1
    mFreePrimaryImage := true
    mStagingImage := some 2
    mFreeStagingImage := true
    mImageView := none
    nextViewHandle := 10 }

/-- A Texture whose device reference is already cleared. -/
def texDeviceCleared : TextureState :=
  { mDevice := false
    mSampler := some 7
    mPrimaryImage := some 1
    mFreePrimaryImage := true }

/-- C1: the claim says the owned sampler is destroyed exactly once over
the object lifetime on either teardown path.  On the destructor path of
a live Texture the device sampler-destruction call is issued TWICE for
the same sampler handle: `~Texture` calls `destroySampler(mSampler)`
directly without nulling the member (Texture.cpp line 85) and then calls
`destroy()` (line 86), which finds `mSampler` still non-null and
destroys it again (lines 103-106).  A standalone `destroy()` call, by
contrast, destroys it exactly once.  This theorem evaluates both paths
at the failing input `texLive`. -/
theorem c1_sampler_destroyed_twice_in_destructor :
    (((Texture.destructorRun texLive).2.filter
        (fun o => decide (o = DeviceOp.destroySampler (some 7)))).length = 2)
    ∧ (((Texture.destroy texLive).2.filter
        (fun o => decide (o = DeviceOp.destroySampler (some 7)))).length = 1) := by
  constructor <;> rfl

/-- C7: `destroy()` is idempotent and a benign no-op once the device
reference is cleared: on a resource with no device reference it performs
no device operation and leaves the state unchanged, and a second
`destroy()` immediately after a first one performs no device operation
(the first call nulled the sampler and every released handle, so every
guard in the second call fails).  The model is a total function, so the
call cannot throw. -/
theorem c7_destroy_idempotent :
    (∀ st : TextureState, st.mDevice = false → Texture.destroy st = (st, []))
    ∧ (∀ st : TextureState, (Texture.destroy (Texture.destroy st).1).2 = []) := by
  constructor
  · intro st h
    simp [Texture.destroy, h]
  · intro st
    rcases st with ⟨⟨dev, dt, mt, desc, x, y, ds, nc, til, pi, fp, pl, si, fs,
      sl, iv, nv⟩, sa⟩
    cases dev <;> cases sa <;> cases pi <;> cases fp <;> cases si <;>
      cases fs <;> cases iv <;>
      simp [Texture.destroy, ImageBase.destroy]

/-- C7 witness: the theorem applied to the concrete cleared-device
Texture. -/
theorem c7_destroy_idempotent_witness :
    Texture.destroy texDeviceCleared = (texDeviceCleared, []) :=
  c7_destroy_idempotent.1 texDeviceCleared rfl

/-- The state of a freshly constructed image before any barrier: both
tracked layouts are undefined (ImageBase.hpp lines 215 and 219). -/
def initialImageState : ImageBaseState := {}

theorem applyBarrierSeq_cons (st : ImageBaseState) (c : BarrierCall)
    (cs : List BarrierCall) :
    applyBarrierSeq st (c :: cs) =
      ((applyBarrierSeq (applyBarrierCall st c).1 cs).1,
       (applyBarrierCall st c).2 ::
         (applyBarrierSeq (applyBarrierCall st c).1 cs).2) := rfl

theorem trackedLayout_applyBarrierCall (st : ImageBaseState)
    (c : BarrierCall) (a : AllocKind) :
    trackedLayout (applyBarrierCall st c).1 a =
      if c.target = a then c.dstLayout else trackedLayout st a := by
  cases hc : c.target <;> cases a <;>
    simp [applyBarrierCall, ImageBase.recordPrimaryImageBarrier,
      ImageBase.recordStagingImageBarrier, trackedLayout, hc]

theorem applyBarrierSeq_trackedLayout (calls : List BarrierCall) :
    ∀ (st : ImageBaseState) (a : AllocKind),
    trackedLayout (applyBarrierSeq st calls).1 a =
      match calls.reverse.find? (fun c => decide (c.target = a)) with
      | some c => c.dstLayout
      | none => trackedLayout st a := by
  induction calls with
  | nil => intro st a; rfl
  | cons c cs ih =>
      intro st a
      rw [applyBarrierSeq_cons]
      show trackedLayout (applyBarrierSeq (applyBarrierCall st c).1 cs).1 a = _
      rw [ih]
      simp only [List.reverse_cons, List.find?_append]
      cases hc : cs.reverse.find? (fun d => decide (d.target = a)) with
      | some d => simp [hc]
      | none =>
          rw [trackedLayout_applyBarrierCall]
          by_cases hta : c.target = a <;> simp [hc, hta, List.find?]

/-- C2: each recorded barrier call transitions exactly one allocation
from its currently tracked layout to the caller-specified destination
layout — the emitted barrier carries the tracked layout as source, the
caller-supplied masks, and the requested destination — and updates only
that tracked layout field; consequently, after any sequence of recorded
barriers starting from the initial state, the tracked layout of each
allocation equals the destination layout of the most recently recorded
barrier targeting it, and is undefined if none targeted it. -/
theorem c2_barrier_layout_tracking :
    (∀ (st : ImageBaseState) (sa da ss ds : Nat) (dl : ImageLayout),
       (ImageBase.recordPrimaryImageBarrier st sa da ss ds dl).2.srcLayout
           = st.mPrimaryImageLayout ∧
       (ImageBase.recordPrimaryImageBarrier st sa da ss ds dl).2.dstLayout = dl ∧
       (ImageBase.recordPrimaryImageBarrier st sa da ss ds dl).2.srcAccessMask = sa ∧
       (ImageBase.recordPrimaryImageBarrier st sa da ss ds dl).2.dstAccessMask = da ∧
       (ImageBase.recordPrimaryImageBarrier st sa da ss ds dl).2.srcStageMask = ss ∧
       (ImageBase.recordPrimaryImageBarrier st sa da ss ds dl).2.dstStageMask = ds ∧
       (ImageBase.recordPrimaryImageBarrier st sa da ss ds dl).1.mPrimaryImageLayout = dl ∧
       (ImageBase.recordPrimaryImageBarrier st sa da ss ds dl).1.mStagingImageLayout
           = st.mStagingImageLayout) ∧
    (∀ (st : ImageBaseState) (sa da ss ds : Nat) (dl : ImageLayout),
       (ImageBase.recordStagingImageBarrier st sa da ss ds dl).2.srcLayout
           = st.mStagingImageLayout ∧
       (ImageBase.recordStagingImageBarrier st sa da ss ds dl).2.dstLayout = dl ∧
       (ImageBase.recordStagingImageBarrier st sa da ss ds dl).1.mStagingImageLayout = dl ∧
       (ImageBase.recordStagingImageBarrier st sa da ss ds dl).1.mPrimaryImageLayout
           = st.mPrimaryImageLayout) ∧
    (∀ (calls : List BarrierCall) (a : AllocKind),
       trackedLayout (applyBarrierSeq initialImageState calls).1 a
         = lastDstLayout calls a) := by
  refine ⟨fun st sa da ss ds dl => ?_, fun st sa da ss ds dl => ?_,
    fun calls a => ?_⟩
  · exact ⟨rfl, rfl, rfl, rfl, rfl, rfl, rfl, rfl⟩
  · exact ⟨rfl, rfl, rfl, rfl⟩
  · rw [applyBarrierSeq_trackedLayout, lastDstLayout]
    cases hc : calls.reverse.find? (fun c => decide (c.target = a)) with
    | some d => rfl
    | none => cases a <;> rfl

/-- A freshly constructed storage Image: device present, primary
allocation handle 1, no cached view, tracked primary layout still at its
initial undefined value. -/
def imgFresh : ImageBaseState :=
  { mDevice := true
    mPrimaryImage := some 1
    nextViewHandle := 5 }

/-- A fresh Texture state with an owned sampler and no cached view. -/
def texFresh : TextureState :=
  { mDevice := true
    mPrimaryImage := some 1
    nextViewHandle := 5
    mSampler := some 7 }

/-- C3 counterexample: the claim says the storage-image descriptor info
reports the general layout regardless of the tracked primary-image
layout.  On a freshly constructed Image the tracked layout is undefined
and `Image::constructDescriptorImageInfo` copies exactly that tracked
layout into the descriptor (src/Image.cpp line 47), so the reported
layout is not general. -/
theorem c3_descriptor_layout_not_general :
    (Image.constructDescriptorImageInfo imgFresh).1.imageLayout
      ≠ ImageLayout.eGeneral := by decide

/-- C3 amended: the descriptor image info returned by
`Image::constructDescriptorImageInfo` carries the currently tracked
primary-image layout (general only when the tracked layout is general)
and no sampler; the Texture variant carries the tracked layout and the
owned sampler. -/
theorem c3_descriptor_info_fields :
    (∀ st : ImageBaseState,
       (Image.constructDescriptorImageInfo st).1.imageLayout
           = st.mPrimaryImageLayout ∧
       (Image.constructDescriptorImageInfo st).1.sampler = none) ∧
    (∀ ts : TextureState,
       (Texture.constructDescriptorImageInfo ts).1.imageLayout
           = ts.mPrimaryImageLayout ∧
       (Texture.constructDescriptorImageInfo ts).1.sampler = ts.mSampler) := by
  constructor
  · intro st
    cases h : st.mImageView <;>
      simp [Image.constructDescriptorImageInfo, h]
  · intro ts
    cases h : ts.mImageView <;>
      simp [Texture.constructDescriptorImageInfo, h]

/-- C8: the first `constructDescriptorImageInfo` call on a resource with
no cached view creates exactly one view — a 2-D, single-mip,
single-layer, color-aspect view over the primary allocation — caches
its handle, and returns a descriptor info referencing it; a call on a
resource that already holds a cached view creates no view, leaves the
state unchanged, and returns a descriptor info referencing the cached
view.  Stated for both the Image and the Texture variant. -/
theorem c8_lazy_view_creation_cached :
    (∀ st : ImageBaseState, st.mImageView = none →
       (Image.constructDescriptorImageInfo st).2.2 =
         [{ image := st.mPrimaryImage
            format := ImageBase.getFormat st
            viewType := ImageViewType.e2D
            baseMipLevel := 0
            levelCount := 1
            baseArrayLayer := 0
            layerCount := 1
            aspectMask := ImageAspectFlagBits.eColor }] ∧
       (Image.constructDescriptorImageInfo st).2.1.mImageView
           = some st.nextViewHandle ∧
       (Image.constructDescriptorImageInfo st).1.imageView
           = st.nextViewHandle) ∧
    (∀ (st : ImageBaseState) (v : Nat), st.mImageView = some v →
       (Image.constructDescriptorImageInfo st).2.2 = [] ∧
       (Image.constructDescriptorImageInfo st).2.1 = st ∧
       (Image.constructDescriptorImageInfo st).1.imageView = v) ∧
    (∀ ts : TextureState, ts.mImageView = none →
       (Texture.constructDescriptorImageInfo ts).2.2 =
         [{ image := ts.mPrimaryImage
            format := ImageBase.getFormat ts.toImageBaseState
            viewType := ImageViewType.e2D
            baseMipLevel := 0
            levelCount := 1
            baseArrayLayer := 0
            layerCount := 1
            aspectMask := ImageAspectFlagBits.eColor }] ∧
       (Texture.constructDescriptorImageInfo ts).2.1.mImageView
           = some ts.nextViewHandle ∧
       (Texture.constructDescriptorImageInfo ts).1.imageView
           = ts.nextViewHandle) ∧
    (∀ (ts : TextureState) (v : Nat), ts.mImageView = some v →
       (Texture.constructDescriptorImageInfo ts).2.2 = [] ∧
       (Texture.constructDescriptorImageInfo ts).2.1 = ts ∧
       (Texture.constructDescriptorImageInfo ts).1.imageView = v) := by
  refine ⟨fun st h => ?_, fun st v h => ?_, fun ts h => ?_, fun ts v h => ?_⟩
  · simp [Image.constructDescriptorImageInfo, h]
  · simp [Image.constructDescriptorImageInfo, h]
  · simp [Texture.constructDescriptorImageInfo, h]
  · simp [Texture.constructDescriptorImageInfo, h]

/-- C8 witness: the theorem applied to the fresh Image state (first
call) and to the state after that first call (second call): the second
call creates no view and returns the view handle cached by the first. -/
theorem c8_lazy_view_creation_cached_witness :
    ((Image.constructDescriptorImageInfo
        (Image.constructDescriptorImageInfo imgFresh).2.1).2.2 = [] ∧
     (Image.constructDescriptorImageInfo
        (Image.constructDescriptorImageInfo imgFresh).2.1).2.1
         = (Image.constructDescriptorImageInfo imgFresh).2.1 ∧
     (Image.constructDescriptorImageInfo
        (Image.constructDescriptorImageInfo imgFresh).2.1).1.imageView = 5) :=
  c8_lazy_view_creation_cached.2.1
    (Image.constructDescriptorImageInfo imgFresh).2.1 5 rfl

/-- C4: for each of the four supported residency classes,
`Image::getPrimaryImageUsageFlags` returns storage-image usage plus
transfer-src and transfer-dst, and `Texture::getPrimaryImageUsageFlags`
returns sampled-image usage plus transfer-src and transfer-dst; any
other residency value makes both throw; and every successfully returned
flag set includes transfer-src and transfer-dst. -/
theorem c4_primary_usage_flags :
    (Image.getPrimaryImageUsageFlags MemoryTypes.eDevice
        = Except.ok { eStorage := true, eTransferSrc := true, eTransferDst := true } ∧
     Image.getPrimaryImageUsageFlags MemoryTypes.eHost
        = Except.ok { eStorage := true, eTransferSrc := true, eTransferDst := true } ∧
     Image.getPrimaryImageUsageFlags MemoryTypes.eDeviceAndHost
        = Except.ok { eStorage := true, eTransferSrc := true, eTransferDst := true } ∧
     Image.getPrimaryImageUsageFlags MemoryTypes.eStorage
        = Except.ok { eStorage := true, eTransferSrc := true, eTransferDst := true }) ∧
    (Texture.getPrimaryImageUsageFlags MemoryTypes.eDevice
        = Except.ok { eSampled := true, eTransferSrc := true, eTransferDst := true } ∧
     Texture.getPrimaryImageUsageFlags MemoryTypes.eHost
        = Except.ok { eSampled := true, eTransferSrc := true, eTransferDst := true } ∧
     Texture.getPrimaryImageUsageFlags MemoryTypes.eDeviceAndHost
        = Except.ok { eSampled := true, eTransferSrc := true, eTransferDst := true } ∧
     Texture.getPrimaryImageUsageFlags MemoryTypes.eStorage
        = Except.ok { eSampled := true, eTransferSrc := true, eTransferDst := true }) ∧
    (Image.getPrimaryImageUsageFlags MemoryTypes.eUnknownEnumValue
        = Except.error "Kompute Image invalid image type" ∧
     Texture.getPrimaryImageUsageFlags MemoryTypes.eUnknownEnumValue
        = Except.error "Kompute Image invalid image type") ∧
    (∀ (mt : MemoryTypes) (f : ImageUsageFlags),
       Image.getPrimaryImageUsageFlags mt = Except.ok f →
       f.eTransferSrc = true ∧ f.eTransferDst = true) ∧
    (∀ (mt : MemoryTypes) (f : ImageUsageFlags),
       Texture.getPrimaryImageUsageFlags mt = Except.ok f →
       f.eTransferSrc = true ∧ f.eTransferDst = true) := by
  refine ⟨⟨rfl, rfl, rfl, rfl⟩, ⟨rfl, rfl, rfl, rfl⟩, ⟨rfl, rfl⟩,
    fun mt f h => ?_, fun mt f h => ?_⟩ <;>
    cases mt <;> simp [Image.getPrimaryImageUsageFlags,
      Texture.getPrimaryImageUsageFlags] at h <;> simp [← h]

/-- C4 witness: the transfer-inclusion parts of the theorem applied at
the device residency class, where the hypotheses hold by computation. -/
theorem c4_primary_usage_flags_witness :
    (({ eStorage := true, eTransferSrc := true,
        eTransferDst := true } : ImageUsageFlags).eTransferSrc = true ∧
     ({ eStorage := true, eTransferSrc := true,
        eTransferDst := true } : ImageUsageFlags).eTransferDst = true) :=
  c4_primary_usage_flags.2.2.2.1 MemoryTypes.eDevice _ rfl

/-- C5: the tiling-inferring Image constructor resolves host-only and
device-and-host residency to linear tiling, device-only and storage
residency to optimal tiling, and rejects any other residency value with
a fatal error before any allocation; the explicit-tiling constructor
uses the caller-supplied tiling unchanged. -/
theorem c5_tiling_resolution :
    (∀ (dt : DataTypes) (ds x y nc : Nat), dt ≠ DataTypes.eCustom →
       ((Image.construct dt ds x y nc MemoryTypes.eHost).2.map
           (fun st => st.mTiling) = Except.ok ImageTiling.eLinear) ∧
       ((Image.construct dt ds x y nc MemoryTypes.eDeviceAndHost).2.map
           (fun st => st.mTiling) = Except.ok ImageTiling.eLinear) ∧
       ((Image.construct dt ds x y nc MemoryTypes.eDevice).2.map
           (fun st => st.mTiling) = Except.ok ImageTiling.eOptimal) ∧
       ((Image.construct dt ds x y nc MemoryTypes.eStorage).2.map
           (fun st => st.mTiling) = Except.ok ImageTiling.eOptimal) ∧
       (Image.construct dt ds x y nc MemoryTypes.eUnknownEnumValue
           = ([], Except.error "Kompute Image unsupported memory type"))) ∧
    (∀ (dt : DataTypes) (ds x y nc : Nat), dt ≠ DataTypes.eCustom →
       ((Texture.construct dt ds x y nc MemoryTypes.eHost).2.map
           (fun st => st.mTiling) = Except.ok ImageTiling.eLinear) ∧
       ((Texture.construct dt ds x y nc MemoryTypes.eDeviceAndHost).2.map
           (fun st => st.mTiling) = Except.ok ImageTiling.eLinear) ∧
       ((Texture.construct dt ds x y nc MemoryTypes.eDevice).2.map
           (fun st => st.mTiling) = Except.ok ImageTiling.eOptimal) ∧
       ((Texture.construct dt ds x y nc MemoryTypes.eStorage).2.map
           (fun st => st.mTiling) = Except.ok ImageTiling.eOptimal) ∧
       (Texture.construct dt ds x y nc MemoryTypes.eUnknownEnumValue
           = ([], Except.error "Kompute Image unsupported memory type"))) ∧
    (∀ (dt : DataTypes) (ds x y nc : Nat) (tiling : ImageTiling)
       (mt : MemoryTypes), dt ≠ DataTypes.eCustom →
       mt ≠ MemoryTypes.eUnknownEnumValue →
       ((Image.constructWithTiling dt ds x y nc tiling mt).2.map
           (fun st => st.mTiling) = Except.ok tiling) ∧
       ((Texture.constructWithTiling dt ds x y nc tiling mt).2.map
           (fun st => st.mTiling) = Except.ok tiling)) := by
  refine ⟨fun dt ds x y nc h => ?_, fun dt ds x y nc h => ?_,
    fun dt ds x y nc tiling mt h hmt => ?_⟩
  · refine ⟨?_, ?_, ?_, ?_, ?_⟩ <;>
      simp [Image.construct, ImageBase.init, h, Except.map]
  · refine ⟨?_, ?_, ?_, ?_, ?_⟩ <;>
      simp [Texture.construct, Image.construct, ImageBase.init, h,
        Except.map]
  · constructor
    · simp [Image.constructWithTiling, ImageBase.init, h, hmt, Except.map]
    · simp [Texture.constructWithTiling, Image.constructWithTiling,
        ImageBase.init, h, hmt, Except.map]

/-- C5 witness: the theorem applied at the unsigned 8-bit data type for
a 4 by 4, 4-channel image: device-and-host residency resolves to linear
tiling, and the explicit-tiling constructor keeps an optimal override
under device-and-host residency. -/
theorem c5_tiling_resolution_witness :
    ((Image.construct DataTypes.eU8 64 4 4 4
        MemoryTypes.eDeviceAndHost).2.map (fun st => st.mTiling)
       = Except.ok ImageTiling.eLinear) ∧
    ((Image.constructWithTiling DataTypes.eU8 64 4 4 4 ImageTiling.eOptimal
        MemoryTypes.eDeviceAndHost).2.map (fun st => st.mTiling)
       = Except.ok ImageTiling.eOptimal) :=
  ⟨((c5_tiling_resolution.1 DataTypes.eU8 64 4 4 4 (by decide)).2.1),
   (c5_tiling_resolution.2.2 DataTypes.eU8 64 4 4 4 ImageTiling.eOptimal
     MemoryTypes.eDeviceAndHost (by decide) (by decide)).1⟩

/-- C6: constructing an Image or Texture with the custom data type fails
with the custom-data-type fatal error and an empty allocation list (the
check precedes `init` and, for Texture, the sampler creation); for every
other data type the custom-type check does not fire — the result is
never the custom-data-type error. -/
theorem c6_custom_data_type_rejected :
    (∀ (ds x y nc : Nat) (tiling : ImageTiling) (mt : MemoryTypes),
       Image.constructWithTiling DataTypes.eCustom ds x y nc tiling mt
         = ([], Except.error
             "Custom data types are not supported for Kompute Images") ∧
       Image.construct DataTypes.eCustom ds x y nc mt
         = ([], Except.error
             "Custom data types are not supported for Kompute Images") ∧
       Texture.constructWithTiling DataTypes.eCustom ds x y nc tiling mt
         = ([], Except.error
             "Custom data types are not supported for Kompute Images") ∧
       Texture.construct DataTypes.eCustom ds x y nc mt
         = ([], Except.error
             "Custom data types are not supported for Kompute Images")) ∧
    (∀ (dt : DataTypes) (ds x y nc : Nat) (tiling : ImageTiling)
       (mt : MemoryTypes), dt ≠ DataTypes.eCustom →
       (Image.constructWithTiling dt ds x y nc tiling mt).2
          ≠ Except.error
              "Custom data types are not supported for Kompute Images" ∧
       (Image.construct dt ds x y nc mt).2
          ≠ Except.error
              "Custom data types are not supported for Kompute Images" ∧
       (Texture.constructWithTiling dt ds x y nc tiling mt).2
          ≠ Except.error
              "Custom data types are not supported for Kompute Images" ∧
       (Texture.construct dt ds x y nc mt).2
          ≠ Except.error
              "Custom data types are not supported for Kompute Images") := by
  constructor
  · intro ds x y nc tiling mt
    refine ⟨rfl, rfl, rfl, rfl⟩
  · intro dt ds x y nc tiling mt h
    refine ⟨?_, ?_, ?_, ?_⟩ <;>
      cases mt <;>
        simp [Image.constructWithTiling, Image.construct,
          Texture.constructWithTiling, Texture.construct,
          ImageBase.init, h]

/-- C6 witness: the theorem applied at the 32-bit float data type with
device residency: neither constructor reports the custom-type error. -/
theorem c6_custom_data_type_rejected_witness :
    (Image.constructWithTiling DataTypes.eF32 64 4 4 4 ImageTiling.eOptimal
        MemoryTypes.eDevice).2
      ≠ Except.error
          "Custom data types are not supported for Kompute Images" :=
  (c6_custom_data_type_rejected.2 DataTypes.eF32 64 4 4 4
    ImageTiling.eOptimal MemoryTypes.eDevice (by decide)).1

/-- C9: the vector constructors of `ImageT<T>` and `TextureT<T>` forward
`data.size()` — the element count of the vector — as the `dataSize`
argument of the underlying Image constructor, so the constructed
resource records the element count, not the byte size the parameter is
documented to be; whenever the element type is wider than one byte and
the vector is non-empty the two quantities differ. -/
theorem c9_dataSize_is_element_count :
    (∀ (T : Type) (data : List T) (x y nc : Nat) (dt : DataTypes)
       (tiling : ImageTiling) (mt : MemoryTypes),
       dt ≠ DataTypes.eCustom → mt ≠ MemoryTypes.eUnknownEnumValue →
       ((ImageT.construct T data x y nc dt tiling mt).2.map
           (fun st => st.mDataSize) = Except.ok data.length) ∧
       ((TextureT.construct T data x y nc dt tiling mt).2.map
           (fun st => st.mDataSize) = Except.ok data.length)) ∧
    (∀ (T : Type) (data : List T) (dt : DataTypes),
       data ≠ [] → 2 ≤ bytesPerElement dt →
       data.length ≠ data.length * bytesPerElement dt) := by
  constructor
  · intro T data x y nc dt tiling mt h hmt
    constructor
    · simp [ImageT.construct, Image.constructWithTiling, ImageBase.init,
        h, hmt, Except.map]
    · simp [TextureT.construct, Texture.constructWithTiling,
        Image.constructWithTiling, ImageBase.init, h, hmt, Except.map]
  · intro T data dt hne hw
    have hlen : 0 < data.length := List.length_pos.mpr hne
    have h2 : data.length * 2 ≤ data.length * bytesPerElement dt :=
      Nat.mul_le_mul_left _ hw
    omega

/-- C9 witness: the theorem applied to a two-element 32-bit float vector
(elements modelled as naturals): the forwarded dataSize is the element
count 2, which differs from the 8-byte size of the data. -/
theorem c9_dataSize_is_element_count_witness :
    ((ImageT.construct Nat [10, 20] 2 1 1 DataTypes.eF32
        ImageTiling.eOptimal MemoryTypes.eDevice).2.map
       (fun st => st.mDataSize) = Except.ok ([10, 20] : List Nat).length) ∧
    (([10, 20] : List Nat).length
       ≠ ([10, 20] : List Nat).length * bytesPerElement DataTypes.eF32) :=
  ⟨(c9_dataSize_is_element_count.1 Nat [10, 20] 2 1 1 DataTypes.eF32
      ImageTiling.eOptimal MemoryTypes.eDevice (by decide) (by decide)).1,
   c9_dataSize_is_element_count.2 Nat [10, 20] DataTypes.eF32
     (by decide) (by decide)⟩

/-- C10: `operator[]` of the typed accessors performs no bounds check:
it is a raw read of the mapped memory at the given signed offset for
every index — for an index inside `[0, count)` it yields the index-th
element of the host-visible data, and for any index outside that range
it yields whatever lies in the surrounding memory rather than an
error (there is no error branch). -/
theorem c10_opIndex_unchecked :
    (∀ (T : Type) (m : MappedRegion T) (i : Int),
       ImageT.opIndex m i = m.contents i ∧
       TextureT.opIndex m i = m.contents i) ∧
    (∀ (T : Type) (xs : List T) (surrounding : Int → T) (i : Nat)
       (h : i < xs.length),
       ImageT.opIndex (MappedRegion.ofList xs surrounding) (Int.ofNat i)
           = xs.get ⟨i, h⟩ ∧
       TextureT.opIndex (MappedRegion.ofList xs surrounding) (Int.ofNat i)
           = xs.get ⟨i, h⟩) ∧
    (∀ (T : Type) (xs : List T) (surrounding : Int → T) (i : Int),
       (i < 0 ∨ (xs.length : Int) ≤ i) →
       ImageT.opIndex (MappedRegion.ofList xs surrounding) i
           = surrounding i ∧
       TextureT.opIndex (MappedRegion.ofList xs surrounding) i
           = surrounding i) := by
  refine ⟨fun T m i => ⟨rfl, rfl⟩, fun T xs surrounding i h => ?_,
    fun T xs surrounding i h => ?_⟩
  · have hcond : 0 ≤ (Int.ofNat i) ∧ (Int.ofNat i).toNat < xs.length := by
      constructor
      · exact Int.ofNat_nonneg i
      · simpa using h
    constructor <;>
      · simp only [ImageT.opIndex, TextureT.opIndex, MappedRegion.ofList,
          dif_pos hcond]
        congr 1
  · have hcond : ¬(0 ≤ i ∧ i.toNat < xs.length) := by
      rintro ⟨h0, hlt⟩
      omega
    constructor <;>
      simp only [ImageT.opIndex, TextureT.opIndex, MappedRegion.ofList,
        dif_neg hcond]

/-- C10 witness: the theorem applied to a concrete three-element region:
index 1 reads the second element, index 5 reads the surrounding
memory. -/
theorem c10_opIndex_unchecked_witness :
    (ImageT.opIndex (MappedRegion.ofList [10, 20, 30] (fun _ => 99))
        (Int.ofNat 1) = ([10, 20, 30] : List Nat).get ⟨1, by decide⟩) ∧
    (ImageT.opIndex (MappedRegion.ofList [10, 20, 30] (fun _ => 99)) 5
        = 99) :=
  ⟨(c10_opIndex_unchecked.2.1 Nat [10, 20, 30] (fun _ => 99) 1
      (by decide)).1,
   (c10_opIndex_unchecked.2.2 Nat [10, 20, 30] (fun _ => 99) 5
      (Or.inr (by decide))).1⟩

end kp
